import Mathlib

/-!
Verification development for the ai-powered-file-explorer repository.

The definitions below are a shallow embedding of the two core modules,
src/services/file_system.py (FileSystemService) and
src/services/ai_service.py (AIService and AsyncRateLimiter).

Modelling conventions:
- Python paths are strings; Python dicts keyed by path become association
  lists with first-match lookup (insertion replaces the previous binding).
- Wall-clock timestamps are explicit numeric arguments threaded through the
  operations (datetime.now() becomes a parameter); the limiter keeps time in
  seconds as rationals, since the Python code uses total_seconds()/60.0.
- Python float arithmetic in the limiter is modelled over the rationals: the
  properties at stake are algorithmic, not rounding artifacts.
- async functions that never suspend externally are plain functions; the
  streaming remote endpoint is an explicit parameter describing the chunks
  delivered and how the stream ended; the limiter loop consumes an explicit
  list of clock readings, one per loop iteration, and returns none when the
  list is exhausted while the loop would still be waiting.
-/

namespace FileExplorer

/-! ## Association-list maps (Python dict keyed by path) -/

/-- First-match lookup in an association list, the model of a dict read. -/
def lookupA {α : Type} (k : String) : List (String × α) → Option α
  | [] => none
  | (k₂, v) :: rest => if k = k₂ then some v else lookupA k rest

/-- Remove every binding of a key, the model of dict.pop(k, None). -/
def eraseA {α : Type} (k : String) (l : List (String × α)) : List (String × α) :=
  l.filter (fun e => e.1 ≠ k)

/-- Bind a key, replacing any previous binding, the model of d[k] = v. -/
def insertA {α : Type} (k : String) (v : α) (l : List (String × α)) : List (String × α) :=
  (k, v) :: eraseA k l

deriving instance DecidableEq for Except

/-! ## UTF-8 (Python str encoding and bytes.decode) -/

/-- A UTF-8 continuation byte. -/
def isCont (b : Nat) : Prop := 0x80 ≤ b ∧ b < 0xC0

instance (b : Nat) : Decidable (isCont b) := by unfold isCont; infer_instance

/-- Parse one scalar value from the head of a byte list, with the strictness
of CPython's utf-8 codec: no continuation-byte leads, no overlong forms, no
surrogates, no code points above 0x10FFFF. Returns none on invalid input. -/
def utf8ParseOne : List Nat → Option (Nat × List Nat)
  | [] => none
  | b :: bs =>
    if b < 0x80 then some (b, bs)
    else if b < 0xC2 then none
    else if b < 0xE0 then
      match bs with
      | b₁ :: rest =>
        if isCont b₁ then some ((b - 0xC0) * 64 + (b₁ - 0x80), rest) else none
      | [] => none
    else if b < 0xF0 then
      match bs with
      | b₁ :: b₂ :: rest =>
        if isCont b₁ ∧ isCont b₂ ∧ (b = 0xE0 → 0xA0 ≤ b₁) ∧ (b = 0xED → b₁ < 0xA0) then
          some ((b - 0xE0) * 4096 + (b₁ - 0x80) * 64 + (b₂ - 0x80), rest)
        else none
      | _ => none
    else if b < 0xF5 then
      match bs with
      | b₁ :: b₂ :: b₃ :: rest =>
        if isCont b₁ ∧ isCont b₂ ∧ isCont b₃ ∧ (b = 0xF0 → 0x90 ≤ b₁) ∧ (b = 0xF4 → b₁ < 0x90) then
          some ((b - 0xF0) * 262144 + (b₁ - 0x80) * 4096 + (b₂ - 0x80) * 64 + (b₃ - 0x80), rest)
        else none
      | _ => none
    else none

/-- Strict decoding of a byte list to code points; none on any invalid
sequence. Models bytes.decode in its default strict mode, whose failure is
the UnicodeDecodeError branch of FileSystemService.read_file. Fuelled by the
length of the input; each parse consumes at least one byte. -/
def utf8DecodeLoop : Nat → List Nat → Option (List Nat)
  | _, [] => some []
  | 0, _ :: _ => none
  | fuel + 1, b :: bs =>
    match utf8ParseOne (b :: bs) with
    | none => none
    | some (c, rest) => (utf8DecodeLoop fuel rest).map (fun cs => c :: cs)

def utf8Decode (bs : List Nat) : Option (List Nat) :=
  utf8DecodeLoop bs.length bs

/-- Permissive decoding that drops invalid bytes, the model of
bytes.decode with the ignore error handler used by read_file. -/
def utf8DecodeIgnoreLoop : Nat → List Nat → List Nat
  | _, [] => []
  | 0, _ :: _ => []
  | fuel + 1, b :: bs =>
    match utf8ParseOne (b :: bs) with
    | some (c, rest) => c :: utf8DecodeIgnoreLoop fuel rest
    | none => utf8DecodeIgnoreLoop fuel bs

def utf8DecodeIgnore (bs : List Nat) : List Nat :=
  utf8DecodeIgnoreLoop bs.length bs

/-- Permissive decoding that substitutes U+FFFD for invalid bytes. Modelled
from the spec words: invalid byte sequences replaced, not fatal. The source
uses the ignore handler instead; this definition exists only to compare the
two behaviours. -/
def utf8DecodeReplaceLoop : Nat → List Nat → List Nat
  | _, [] => []
  | 0, _ :: _ => []
  | fuel + 1, b :: bs =>
    match utf8ParseOne (b :: bs) with
    | some (c, rest) => c :: utf8DecodeReplaceLoop fuel rest
    | none => 0xFFFD :: utf8DecodeReplaceLoop fuel bs

def utf8DecodeReplace (bs : List Nat) : List Nat :=
  utf8DecodeReplaceLoop bs.length bs

/-- UTF-8 encoding of one code point. -/
def utf8EncodeChar (c : Nat) : List Nat :=
  if c < 0x80 then [c]
  else if c < 0x800 then [0xC0 + c / 64, 0x80 + c % 64]
  else if c < 0x10000 then [0xE0 + c / 4096, 0x80 + (c / 64) % 64, 0x80 + c % 64]
  else [0xF0 + c / 262144, 0x80 + (c / 4096) % 64, 0x80 + (c / 64) % 64, 0x80 + c % 64]

/-- Bytes written for a Python str, the model of text-mode file writing. -/
def utf8EncodeString (s : String) : List Nat :=
  (s.data.map (fun ch => utf8EncodeChar ch.toNat)).flatten

/-! ## FileSystemService (src/services/file_system.py) -/

/-- A filesystem entry: a regular file with its byte content and
modification time, or a directory. -/
inductive FsEntry : Type
  | file (content : List Nat) (mtime : Nat)
  | dir
deriving DecidableEq

/-- Errors raised by the file-system operations: FileNotFoundError,
NotADirectoryError, IsADirectoryError. -/
inductive FsError : Type
  | notFound
  | notADirectory
  | isADirectory
deriving DecidableEq

/-- Container for file metadata, mirroring the FileMetadata class. -/
structure FileMetadata : Type where
  path : String
  size : Nat
  modified_time : Nat
  mime_type : String
  is_hidden : Bool
deriving DecidableEq

/-- State of a FileSystemService instance, plus the disk it operates on.
monitored_paths models the Python set of monitored roots; watches models the
multiset of roots the watchdog observer has scheduled. -/
structure FSState : Type where
  chunk_size : Nat
  disk : List (String × FsEntry)
  monitored_paths : List String
  watches : List String
  metadata_cache : List (String × FileMetadata)
deriving DecidableEq

/-- Final component of a path, the model of pathlib Path.name. -/
def pathName (p : String) : String :=
  ((p.splitOn "/").getLastD "")

/-- FileSystemService.start_monitoring: existence and directory checks, then
schedule a recursive watch and record the root unless already monitored. -/
def start_monitoring (st : FSState) (p : String) : Except FsError FSState :=
  match lookupA p st.disk with
  | none => .error .notFound
  | some (.file _ _) => .error .notADirectory
  | some .dir =>
    if p ∈ st.monitored_paths then .ok st
    else .ok { st with
      watches := p :: st.watches,
      monitored_paths := p :: st.monitored_paths }

/-- FileSystemService.get_metadata: return the cached entry when present;
otherwise require existence, stat the path, classify its content via the
external sniffing capability, derive the hidden flag from the leading-dot
convention, cache the result and return it. -/
def get_metadata (classify : String → String) (st : FSState) (p : String) :
    Except FsError (FileMetadata × FSState) :=
  match lookupA p st.metadata_cache with
  | some m => .ok (m, st)
  | none =>
    match lookupA p st.disk with
    | none => .error .notFound
    | some e =>
      let m : FileMetadata := {
        path := p
        size := match e with | .file content _ => content.length | .dir => 0
        modified_time := match e with | .file _ t => t | .dir => 0
        mime_type := classify p
        is_hidden := (pathName p).startsWith "." }
      .ok (m, { st with metadata_cache := insertA p m st.metadata_cache })

/-- FileSystemService.read_file: existence check, then strict text decoding;
on UnicodeDecodeError, re-read as raw bytes and decode with the ignore error
handler. Returns the code points of the resulting Python str. -/
def read_file (st : FSState) (p : String) : Except FsError (List Nat) :=
  match lookupA p st.disk with
  | none => .error .notFound
  | some .dir => .error .isADirectory
  | some (.file bytes _) =>
    match utf8Decode bytes with
    | some cps => .ok cps
    | none => .ok (utf8DecodeIgnore bytes)

/-- Ancestor directories of a path, the parents that mkdir(parents=true)
creates for it. -/
def ancestors (p : String) : List String :=
  let comps := (p.splitOn "/").dropLast
  (List.range comps.length).map (fun i => String.intercalate "/" (comps.take (i + 1)))

/-- Create each listed directory that is not already present on disk. -/
def mkdirs (ps : List String) (disk : List (String × FsEntry)) : List (String × FsEntry) :=
  ps.foldl (fun d q => if (lookupA q d).isSome then d else insertA q FsEntry.dir d) disk

/-- FileSystemService.write_file: create parent directories when requested,
write the encoded content (replacing any previous file), then drop the
metadata-cache entry for the path. now is the write timestamp. -/
def write_file (st : FSState) (p : String) (content : String) (now : Nat)
    (create_dirs : Bool := true) : FSState :=
  let disk₁ := if create_dirs then mkdirs (ancestors p) st.disk else st.disk
  { st with
    disk := insertA p (FsEntry.file (utf8EncodeString content) now) disk₁,
    metadata_cache := eraseA p st.metadata_cache }

/-- The value an async-generator call returns: the generator object for
FileSystemService.read_binary with none of its body executed yet. -/
inductive BinGen : Type
  | unstarted (p : String)
  | active (rest : List Nat)
  | finished
deriving DecidableEq

/-- FileSystemService.read_binary is an async generator function: calling it
only creates the generator; the existence check in its body does not run
until the first chunk is requested. -/
def read_binary (_st : FSState) (p : String) : BinGen :=
  BinGen.unstarted p

/-- One step of the read_binary generator: the first step runs the existence
check and opens the file; each step yields the next chunk of at most
chunk_size bytes, or none when the read returns empty and the loop ends. -/
def gen_next (st : FSState) (g : BinGen) : Except FsError (Option (List Nat) × BinGen) :=
  match g with
  | .unstarted p =>
    match lookupA p st.disk with
    | none => .error .notFound
    | some .dir => .error .isADirectory
    | some (.file bytes _) =>
      let chunk := bytes.take st.chunk_size
      if chunk.isEmpty then .ok (none, .finished)
      else .ok (some chunk, .active (bytes.drop st.chunk_size))
  | .active bytes =>
    let chunk := bytes.take st.chunk_size
    if chunk.isEmpty then .ok (none, .finished)
    else .ok (some chunk, .active (bytes.drop st.chunk_size))
  | .finished => .ok (none, .finished)

/-! ## AsyncRateLimiter (src/services/ai_service.py) -/

/-- State of an AsyncRateLimiter: fixed capacity in requests per minute, the
current token balance, and the timestamp (in seconds) of the last update. -/
structure LimiterState : Type where
  rate_limit : ℚ
  tokens : ℚ
  last_update : ℚ
deriving DecidableEq

/-- The AsyncRateLimiter constructor: the bucket starts full. -/
def mkLimiter (requests_per_minute : ℚ) (now : ℚ) : LimiterState :=
  { rate_limit := requests_per_minute
    tokens := requests_per_minute
    last_update := now }

/-- One iteration of the acquire loop body: read the clock, add the tokens
accrued over the elapsed minutes capped at the capacity, record the reading.
The 100ms sleep taken when the balance is still nonpositive only affects
which clock reading the next iteration sees. -/
def refillStep (s : LimiterState) (now : ℚ) : LimiterState :=
  let time_passed := (now - s.last_update) / 60
  { s with
    tokens := min s.rate_limit (s.tokens + time_passed * s.rate_limit),
    last_update := now }

/-- The while loop of acquire: repeat the refill iteration while the balance
is nonpositive, consuming one clock reading per iteration; none means the
supplied readings ran out while the loop was still waiting. -/
def acquireLoop : List ℚ → LimiterState → Option LimiterState
  | times, s =>
    if s.tokens ≤ 0 then
      match times with
      | [] => none
      | now :: rest => acquireLoop rest (refillStep s now)
    else some s

/-- AsyncRateLimiter.acquire: run the refill loop, then spend one token. -/
def acquire (s : LimiterState) (times : List ℚ) : Option LimiterState :=
  (acquireLoop times s).map (fun s₂ => { s₂ with tokens := s₂.tokens - 1 })

/-! ## AIService (src/services/ai_service.py) -/

/-- Container for AI conversation context, mirroring the AIContext
dataclass. Paths are strings; the timestamp is an abstract clock value. -/
structure AIContext : Type where
  workspace_path : Option String
  selected_files : List String
  last_command : Option String
  last_response : Option String
  timestamp : Nat
deriving DecidableEq

/-- The metadata dict attached to an AIResponse. -/
structure AIResponseMeta : Type where
  model : String
  timestamp : Nat
  tokens_used : Nat
deriving DecidableEq

/-- Container for AI response data, mirroring the AIResponse dataclass. -/
structure AIResponse : Type where
  content : String
  context : Option AIContext
  metadata : AIResponseMeta
deriving DecidableEq

/-- The Qt signals AIService emits, in emission order. -/
inductive AIEvent : Type
  | responseStarted
  | responseChunk (text : String)
  | responseComplete (resp : AIResponse)
  | errorOccurred (msg : String)
deriving DecidableEq

/-- Exceptions process_command can propagate: RuntimeError before the try
block, ConnectionError wrapping timeouts and transport errors, the remote
RateLimitError re-raised unchanged, and unexpected errors re-raised. -/
inductive AIError : Type
  | notInitialized (msg : String)
  | connectionError (msg : String)
  | rateLimit (msg : String)
  | unexpected (msg : String)
deriving DecidableEq

/-- How the remote stream ends after its chunks were delivered. -/
inductive RemoteEnding : Type
  | timeout
  | rateLimited
  | apiError (msg : String)
  | other (msg : String)
deriving DecidableEq

/-- Behaviour of the opaque remote streaming endpoint for one request: the
text chunks delivered in arrival order, then either a clean close (none) or
a failure. -/
structure RemoteOutcome : Type where
  chunks : List String
  ending : Option RemoteEnding
deriving DecidableEq

/-- State of an AIService instance. -/
structure AIServiceState : Type where
  model : String
  context : Option AIContext
  limiter : LimiterState
  initialized : Bool
deriving DecidableEq

/-- AIService.update_context: build a fresh context whose workspace and
selection come only from the arguments (a falsy selection becomes the empty
list), carrying over only the previous last command and last response, with
a fresh timestamp. -/
def update_context (st : AIServiceState) (workspace_path : Option String)
    (selected_files : Option (List String)) (now : Nat) : AIServiceState :=
  { st with context := some {
      workspace_path := workspace_path
      selected_files := match selected_files with
        | some fs => if fs.isEmpty then [] else fs
        | none => []
      last_command := match st.context with | some c => c.last_command | none => none
      last_response := match st.context with | some c => c.last_response | none => none
      timestamp := now } }

/-- Python str() of an optional path, as an f-string renders it. -/
def pyStrOptPath : Option String → String
  | some p => p
  | none => "None"

/-- AIService._build_system_prompt: base instruction alone when no context
exists; otherwise base instruction and workspace line, then a selected-files
section when the selection is truthy, then a last-command section when the
last command is truthy, joined by blank lines. -/
def build_system_prompt (ctx : Option AIContext) : String :=
  match ctx with
  | none => "You are an AI assistant helping with file management."
  | some c =>
    let prompt_parts := [
      "You are an AI assistant helping with file management.",
      "Current workspace: " ++ pyStrOptPath c.workspace_path]
    let prompt_parts := if c.selected_files.isEmpty then prompt_parts
      else prompt_parts ++
        ["Selected files:\n" ++ String.intercalate "\n" c.selected_files]
    let prompt_parts := match c.last_command with
      | some cmd => if cmd.isEmpty then prompt_parts
          else prompt_parts ++ ["Last command: " ++ cmd]
      | none => prompt_parts
    String.intercalate "\n\n" prompt_parts

/-- len(s.split()): whitespace-separated word count, the token proxy. -/
def wordCount (s : String) : Nat :=
  ((s.split Char.isWhitespace).filter (fun w => !w.isEmpty)).length

/-- The message of the AttributeError raised by self.context.copy():
AIContext is a plain dataclass and has no copy attribute. (Python renders
the attribute and class names quoted inside the message.) -/
def copyCrashMsg : String :=
  "Unexpected error in AI processing: AIContext object has no attribute copy"

/-- The try block of process_command after the token was acquired: emit the
start signal, then for each truthy chunk append it to the buffer and emit a
chunk signal in arrival order. On a clean close, join the buffer; when a
context exists it is updated in place, and then building the AIResponse
calls self.context.copy(), which raises AttributeError, caught by the
generic handler: error signal, re-raise. Only with no context does the
success path complete: AIResponse built, completion signal, return. Each
failure ending maps to its handler: timeout and APIError become
ConnectionError, RateLimitError is re-raised unchanged, anything else is
re-raised, always after an error signal; the buffer is discarded. -/
def run_stream (st : AIServiceState) (cmd : String) (outcome : RemoteOutcome)
    (now : Nat) : List AIEvent × Except AIError AIResponse × AIServiceState :=
  let delivered := outcome.chunks.filter (fun c => !c.isEmpty)
  let evs := AIEvent.responseStarted :: delivered.map AIEvent.responseChunk
  match outcome.ending with
  | some .timeout =>
    (evs ++ [.errorOccurred "AI request timed out"],
     .error (.connectionError "AI request timed out"), st)
  | some .rateLimited =>
    (evs ++ [.errorOccurred "AI rate limit exceeded"],
     .error (.rateLimit "AI rate limit exceeded"), st)
  | some (.apiError m) =>
    (evs ++ [.errorOccurred ("AI API error: " ++ m)],
     .error (.connectionError ("AI API error: " ++ m)), st)
  | some (.other m) =>
    (evs ++ [.errorOccurred ("Unexpected error in AI processing: " ++ m)],
     .error (.unexpected ("Unexpected error in AI processing: " ++ m)), st)
  | none =>
    let complete := String.join delivered
    match st.context with
    | some ctx =>
      let ctx₂ := { ctx with
        last_command := some cmd
        last_response := some complete
        timestamp := now }
      (evs ++ [.errorOccurred copyCrashMsg],
       .error (.unexpected copyCrashMsg),
       { st with context := some ctx₂ })
    | none =>
      let resp : AIResponse := {
        content := complete
        context := none
        metadata := {
          model := st.model
          timestamp := now
          tokens_used := wordCount complete } }
      (evs ++ [.responseComplete resp], .ok resp, st)

/-- AIService.process_command: RuntimeError when initialize has not
succeeded; otherwise wait on the rate limiter (none when the supplied clock
readings run out while it is still waiting), then run the streaming
exchange. -/
def process_command (st : AIServiceState) (cmd : String) (outcome : RemoteOutcome)
    (times : List ℚ) (now : Nat) :
    Option (List AIEvent × Except AIError AIResponse × AIServiceState) :=
  if st.initialized = false then
    some ([], .error (.notInitialized "AIService not initialized"), st)
  else
    match acquire st.limiter times with
    | none => none
    | some lim₂ => some (run_stream { st with limiter := lim₂ } cmd outcome now)

/-! ## Spec-side comparison definition for the prompt assembly -/

/-- The prompt assembly as the spec words it: base instruction, then the
workspace path only if one is set, then the newline-joined selected files
only if the selection is nonempty, then the last command only if one
exists, the sections joined by blank lines in that fixed order. This
definition follows the spec sentence, not the source, and exists only to
be compared with build_system_prompt. -/
def build_system_prompt_spec (ctx : Option AIContext) : String :=
  match ctx with
  | none => "You are an AI assistant helping with file management."
  | some c =>
    let ps := ["You are an AI assistant helping with file management."]
    let ps := match c.workspace_path with
      | some w => ps ++ ["Current workspace: " ++ w]
      | none => ps
    let ps := if c.selected_files.isEmpty then ps
      else ps ++ ["Selected files:\n" ++ String.intercalate "\n" c.selected_files]
    let ps := match c.last_command with
      | some cmd => ps ++ ["Last command: " ++ cmd]
      | none => ps
    String.intercalate "\n\n" ps

/-! ## Concrete states used by counterexamples and witnesses -/

/-- A metadata value left in the cache for a path that was since removed
from disk. -/
def staleMeta : FileMetadata :=
  { path := "/gone", size := 3, modified_time := 7, mime_type := "text/plain",
    is_hidden := false }

/-- Service state whose cache still holds staleMeta while the disk no
longer has the path. -/
def staleSt : FSState :=
  { chunk_size := 1048576, disk := [], monitored_paths := [], watches := [],
    metadata_cache := [("/gone", staleMeta)] }

/-- Service state over an empty disk. -/
def emptyFS : FSState :=
  { chunk_size := 1048576, disk := [], monitored_paths := [], watches := [],
    metadata_cache := [] }

/-- Service state whose disk has one directory and no watches yet. -/
def oneDirFS : FSState :=
  { chunk_size := 1048576, disk := [("/w", FsEntry.dir)], monitored_paths := [],
    watches := [], metadata_cache := [] }

/-- Service state whose disk has one file whose bytes are not valid UTF-8:
0xFF can begin no sequence. -/
def badBytesFS : FSState :=
  { chunk_size := 1048576, disk := [("/f", FsEntry.file [0x68, 0xFF, 0x69] 0)],
    monitored_paths := [], watches := [], metadata_cache := [] }

/-- A context with a workspace set and an empty selection, as produced by
update_context with workspacePath given and selectedFiles empty. -/
def ctxWs : AIContext :=
  { workspace_path := some "/ws", selected_files := [], last_command := none,
    last_response := none, timestamp := 0 }

/-- A context with no workspace set. -/
def ctxNoWs : AIContext :=
  { workspace_path := none, selected_files := [], last_command := none,
    last_response := none, timestamp := 0 }

/-- An initialized AIService whose context holds a workspace. -/
def aiStWs : AIServiceState :=
  { model := "claude-3-opus-20240229", context := some ctxWs,
    limiter := mkLimiter 50 0, initialized := true }

/-- An initialized AIService with no context. -/
def aiStNoCtx : AIServiceState :=
  { model := "claude-3-opus-20240229", context := none,
    limiter := mkLimiter 1 0, initialized := true }

/-- An AIService state holding a full previous exchange, for the context
update theorems. -/
def prevCtx : AIContext :=
  { workspace_path := some "/old", selected_files := ["/old/a"],
    last_command := some "ls", last_response := some "done", timestamp := 1 }

def aiStPrev : AIServiceState :=
  { model := "claude-3-opus-20240229", context := some prevCtx,
    limiter := mkLimiter 50 0, initialized := true }

/-! ## Helper lemmas -/

theorem lookupA_insertA_self {α : Type} (k : String) (v : α) (l : List (String × α)) :
    lookupA k (insertA k v l) = some v := by
  simp [insertA, lookupA]

theorem lookupA_eraseA_self {α : Type} (k : String) (l : List (String × α)) :
    lookupA k (eraseA k l) = none := by
  induction l with
  | nil => rfl
  | cons e rest ih =>
    by_cases h : e.1 = k
    · simpa [eraseA, h] using ih
    · simpa [eraseA, lookupA, h, Ne.symm h] using ih

/-! ## C1 — get_metadata and nonexistent paths -/

/-- C1 counterexample: the cache is consulted before the existence check,
so for a state whose cache still holds an entry for a path that is no
longer on disk, get_metadata returns the stale cached entry instead of
failing with NotFoundError, refuting the claim that a cache hit for a
since-deleted path is never returned. -/
theorem get_metadata_stale_cache_hit :
    lookupA "/gone" staleSt.disk = none ∧
    get_metadata (fun _ => "text/plain") staleSt "/gone" = .ok (staleMeta, staleSt) ∧
    get_metadata (fun _ => "text/plain") staleSt "/gone" ≠ .error .notFound := by
  refine ⟨rfl, rfl, by decide⟩

/-- C1 amended: get_metadata fails with NotFoundError exactly when the path
is both uncached and absent from disk; a cached entry is returned without
re-checking existence, so a cache hit for a since-deleted path is returned
until something invalidates it. -/
theorem get_metadata_notFound_iff (classify : String → String) (st : FSState) (p : String) :
    get_metadata classify st p = .error .notFound ↔
      lookupA p st.metadata_cache = none ∧ lookupA p st.disk = none := by
  unfold get_metadata
  cases hc : lookupA p st.metadata_cache with
  | some m => simp
  | none =>
    cases hd : lookupA p st.disk with
    | none => simp
    | some e => simp

/-! ## C5 — write_file invalidates the cache, get_metadata re-stats -/

/-- C5: after write_file the metadata cache holds no entry for the path,
and a subsequent get_metadata re-stats the path, returning metadata whose
size is the byte length of the freshly written content and whose
modification time is the write time — never a value cached before the
write. -/
theorem write_file_invalidates_cache (classify : String → String) (st : FSState)
    (p : String) (content : String) (now : Nat) :
    lookupA p (write_file st p content now true).metadata_cache = none ∧
    ∃ st₂, get_metadata classify (write_file st p content now true) p =
      .ok ({ path := p
             size := (utf8EncodeString content).length
             modified_time := now
             mime_type := classify p
             is_hidden := (pathName p).startsWith "." }, st₂) := by
  have hcache : lookupA p (write_file st p content now true).metadata_cache = none := by
    simp [write_file]
    exact lookupA_eraseA_self p st.metadata_cache
  have hdisk : lookupA p (write_file st p content now true).disk =
      some (FsEntry.file (utf8EncodeString content) now) := by
    simp [write_file]
    exact lookupA_insertA_self p _ _
  refine ⟨hcache, ?_, ?_⟩
  · exact { write_file st p content now true with
      metadata_cache := insertA p
        { path := p, size := (utf8EncodeString content).length, modified_time := now,
          mime_type := classify p, is_hidden := (pathName p).startsWith "." }
        (write_file st p content now true).metadata_cache }
  · unfold get_metadata
    rw [hcache, hdisk]

/-! ## C10 — read_binary defers its existence check -/

/-- C10: read_binary is an async generator function, so for a nonexistent
path the call itself returns the (unstarted) chunk generator without
raising; NotFoundError is raised only when the first chunk is requested. -/
theorem read_binary_defers (st : FSState) (p : String)
    (h : lookupA p st.disk = none) :
    read_binary st p = BinGen.unstarted p ∧
    gen_next st (read_binary st p) = .error .notFound := by
  refine ⟨rfl, ?_⟩
  simp [read_binary, gen_next, h]

/-- C10 witness: the empty-disk state, asking for a missing path. -/
theorem read_binary_defers_witness :
    read_binary emptyFS "/missing" = BinGen.unstarted "/missing" ∧
    gen_next emptyFS (read_binary emptyFS "/missing") = .error .notFound :=
  read_binary_defers emptyFS "/missing" rfl

/-! ## C3 — token balance bounds across acquire -/

/-- C3 counterexample: from the freshly constructed capacity-1 limiter, one
acquire drains the bucket to 0, and a second acquire whose single refill
iteration happens 30 seconds later refills only half a token, leaves the
waiting loop because the balance is positive, and then spends a whole
token, ending at -1/2: the claimed invariant 0 ≤ tokens fails after that
reachable acquire. -/
theorem acquire_negative_tokens :
    acquire (mkLimiter 1 0) [] =
      some { rate_limit := 1, tokens := 0, last_update := 0 } ∧
    acquire { rate_limit := 1, tokens := 0, last_update := 0 } [30] =
      some { rate_limit := 1, tokens := -(1/2), last_update := 30 } ∧
    ¬ (0 ≤ (-(1/2) : ℚ)) := by
  refine ⟨?_, ?_, by norm_num⟩
  · unfold acquire acquireLoop mkLimiter
    norm_num
  · unfold acquire acquireLoop refillStep
    norm_num [acquireLoop]

theorem acquireLoop_bounds : ∀ (times : List ℚ) (s s₂ : LimiterState),
    acquireLoop times s = some s₂ →
    0 < s₂.tokens ∧ s₂.rate_limit = s.rate_limit ∧
      (s.tokens ≤ s.rate_limit → s₂.tokens ≤ s.rate_limit) := by
  intro times
  induction times with
  | nil =>
    intro s s₂ h
    unfold acquireLoop at h
    by_cases hs : s.tokens ≤ 0
    · simp [hs] at h
    · simp [hs] at h
      subst h
      exact ⟨lt_of_not_le hs, rfl, fun hc => hc⟩
  | cons now rest ih =>
    intro s s₂ h
    unfold acquireLoop at h
    by_cases hs : s.tokens ≤ 0
    · simp [hs] at h
      obtain ⟨hpos, hrl, hub⟩ := ih (refillStep s now) s₂ h
      have hrfl : (refillStep s now).rate_limit = s.rate_limit := by simp [refillStep]
      have hcap : (refillStep s now).tokens ≤ (refillStep s now).rate_limit := by
        simp [refillStep]
      refine ⟨hpos, hrl.trans hrfl, fun _ => ?_⟩
      have := hub hcap
      rw [hrfl] at this
      exact this
    · simp [hs] at h
      subst h
      exact ⟨lt_of_not_le hs, rfl, fun hc => hc⟩

/-- C3 amended: acquire preserves the capacity and the upper bound
tokens ≤ capacity, but the lower bound is only tokens > -1: the loop exits
as soon as the balance is positive, and the final decrement can push a
fractional balance below zero, though never to -1 or lower. -/
theorem acquire_tokens_bounds (s : LimiterState) (times : List ℚ) (s₂ : LimiterState)
    (hcap : s.tokens ≤ s.rate_limit) (h : acquire s times = some s₂) :
    -1 < s₂.tokens ∧ s₂.tokens ≤ s.rate_limit ∧ s₂.rate_limit = s.rate_limit := by
  unfold acquire at h
  cases hl : acquireLoop times s with
  | none => rw [hl] at h; simp at h
  | some s₃ =>
    rw [hl] at h
    simp at h
    obtain ⟨hpos, hrl, hub⟩ := acquireLoop_bounds times s s₃ hl
    subst h
    refine ⟨?_, ?_, hrl⟩
    · show -1 < s₃.tokens - 1
      linarith
    · show s₃.tokens - 1 ≤ s.rate_limit
      have := hub hcap
      linarith

/-- C3 witness: the amended bounds instantiated at the capacity-1 limiter
and an immediate acquire. -/
theorem acquire_tokens_bounds_witness :
    (mkLimiter 1 0).tokens ≤ (mkLimiter 1 0).rate_limit ∧
    (-1 < ({ rate_limit := 1, tokens := 0, last_update := 0 } : LimiterState).tokens ∧
     ({ rate_limit := 1, tokens := 0, last_update := 0 } : LimiterState).tokens ≤
       (mkLimiter 1 0).rate_limit ∧
     ({ rate_limit := 1, tokens := 0, last_update := 0 } : LimiterState).rate_limit =
       (mkLimiter 1 0).rate_limit) :=
  ⟨by norm_num [mkLimiter],
   acquire_tokens_bounds (mkLimiter 1 0) [] _ (by norm_num [mkLimiter])
     (by unfold acquire acquireLoop mkLimiter; norm_num)⟩

/-! ## C7 — start_monitoring idempotence -/

/-- C7: from any state where the scheduled watches coincide with the
monitored roots and the roots hold no duplicates, a successful
start_monitoring leaves a state in which calling start_monitoring again for
the same root is a no-op, the invariant still holds, and exactly one watch
is active for that root. -/
theorem start_monitoring_idem (st st₂ : FSState) (p : String)
    (hw : st.watches = st.monitored_paths) (hnd : st.monitored_paths.Nodup)
    (h : start_monitoring st p = .ok st₂) :
    start_monitoring st₂ p = .ok st₂ ∧
    st₂.watches = st₂.monitored_paths ∧
    st₂.monitored_paths.Nodup ∧
    st₂.watches.count p = 1 := by
  unfold start_monitoring at h ⊢
  cases hd : lookupA p st.disk with
  | none => rw [hd] at h; simp at h
  | some e =>
    rw [hd] at h
    cases e with
    | file c t => simp at h
    | dir =>
      by_cases hm : p ∈ st.monitored_paths
      · simp [hm] at h
        subst h
        refine ⟨?_, hw, hnd, ?_⟩
        · rw [hd]
          simp [hm]
        · rw [hw]
          exact List.count_eq_one_of_mem hnd hm
      · simp [hm] at h
        subst h
        have hd₂ : lookupA p ({ st with
            watches := p :: st.watches,
            monitored_paths := p :: st.monitored_paths } : FSState).disk =
            some FsEntry.dir := hd
        have hmem : p ∈ ({ st with
            watches := p :: st.watches,
            monitored_paths := p :: st.monitored_paths } : FSState).monitored_paths :=
          List.mem_cons_self p st.monitored_paths
        refine ⟨?_, ?_, ?_, ?_⟩
        · rw [hd₂, if_pos hmem]
        · show p :: st.watches = p :: st.monitored_paths
          rw [hw]
        · exact List.nodup_cons.mpr ⟨hm, hnd⟩
        · show (p :: st.watches).count p = 1
          rw [hw, List.count_cons_self, List.count_eq_zero_of_not_mem hm]

/-! ## C8 — read_file decoding fallback -/

/-- C8 counterexample: for the existing file with bytes 0x68 0xFF 0x69,
strict decoding fails and read_file falls back to the ignore error handler,
which drops the invalid byte and returns the code points of the two valid
bytes; the replace behaviour the claim describes would instead produce
U+FFFD in place of the invalid byte, so the claimed result differs from
what read_file returns. -/
theorem read_file_drops_invalid_bytes :
    read_file badBytesFS "/f" = .ok [0x68, 0x69] ∧
    utf8DecodeReplace [0x68, 0xFF, 0x69] = [0x68, 0xFFFD, 0x69] ∧
    read_file badBytesFS "/f" ≠ .ok (utf8DecodeReplace [0x68, 0xFF, 0x69]) := by
  refine ⟨rfl, rfl, by decide⟩

/-- C8 amended: for every existing file, read_file never fails on decoding:
it returns the strict text decoding when the bytes are valid, and otherwise
re-reads the raw bytes and decodes permissively with invalid byte sequences
dropped (ignored), not replaced. -/
theorem read_file_decode_fallback (st : FSState) (p : String) (bytes : List Nat) (t : Nat)
    (h : lookupA p st.disk = some (FsEntry.file bytes t)) :
    (∀ cps, utf8Decode bytes = some cps → read_file st p = .ok cps) ∧
    (utf8Decode bytes = none → read_file st p = .ok (utf8DecodeIgnore bytes)) := by
  constructor
  · intro cps hc
    unfold read_file
    rw [h]
    simp only [hc]
  · intro hc
    unfold read_file
    rw [h]
    simp only [hc]

/-- C8 witness: the fallback branch instantiated at the invalid-bytes
file. -/
theorem read_file_decode_fallback_witness :
    read_file badBytesFS "/f" = .ok (utf8DecodeIgnore [0x68, 0xFF, 0x69]) :=
  (read_file_decode_fallback badBytesFS "/f" [0x68, 0xFF, 0x69] 0 rfl).2 rfl

/-! ## C4 — system prompt assembly -/

/-- C4 counterexample: with a context present but no workspace set, the
assembled prompt still contains a workspace section rendering None, while
the spec assembly omits the workspace section when none is set, refuting
the claim that the workspace line appears only if a workspace is set. -/
theorem build_prompt_includes_unset_workspace :
    build_system_prompt (some ctxNoWs) =
      "You are an AI assistant helping with file management.\n\nCurrent workspace: None" ∧
    build_system_prompt_spec (some ctxNoWs) =
      "You are an AI assistant helping with file management." ∧
    build_system_prompt (some ctxNoWs) ≠ build_system_prompt_spec (some ctxNoWs) := by
  refine ⟨rfl, rfl, by decide⟩

/-- C4 amended: the prompt is assembled deterministically in the claimed
fixed order, but the workspace line is emitted whenever a context exists,
rendering None when no workspace is set, and the last-command section
additionally requires the last command to be nonempty; on every context
whose workspace is set and whose last command is not the empty string, the
assembly agrees with the spec assembly (in particular, with workspace W and
an empty selection the prompt has the workspace-W line and no Selected
files section). -/
theorem build_prompt_matches_spec (c : AIContext) (w : String)
    (hw : c.workspace_path = some w) (hc : c.last_command ≠ some "") :
    build_system_prompt (some c) = build_system_prompt_spec (some c) := by
  obtain ⟨wp, sel, lc, lr, ts⟩ := c
  simp only [AIContext.workspace_path] at hw
  simp only [AIContext.last_command] at hc
  subst hw
  cases lc with
  | none => simp [build_system_prompt, build_system_prompt_spec, pyStrOptPath]
  | some cmd =>
    have hne : cmd.isEmpty = false := by
      cases he : cmd.isEmpty with
      | false => rfl
      | true =>
        exact absurd (by rw [(String.isEmpty_iff cmd).mp he]) hc
    simp [build_system_prompt, build_system_prompt_spec, pyStrOptPath, hne]

/-- C4 witness: the context with workspace /ws and empty selection, where
the assembled prompt is the base instruction plus the workspace line and
nothing else. -/
theorem build_prompt_matches_spec_witness :
    build_system_prompt (some ctxWs) = build_system_prompt_spec (some ctxWs) :=
  build_prompt_matches_spec ctxWs "/ws" rfl (by decide)

/-! ## C9 — update_context resets omitted fields -/

/-- C9: for every previous context, updating with both fields omitted
resets the workspace path to absent and the selection to empty, carries
over only the previous last command and last response, and stamps the
fresh timestamp. -/
theorem update_context_resets (st : AIServiceState) (prev : AIContext) (now : Nat)
    (h : st.context = some prev) :
    (update_context st none none now).context =
      some { workspace_path := none, selected_files := [],
             last_command := prev.last_command,
             last_response := prev.last_response,
             timestamp := now } := by
  simp [update_context, h]

/-- C9 witness: the reset applied to a state holding a full previous
exchange. -/
theorem update_context_resets_witness :
    (update_context aiStPrev none none 9).context =
      some { workspace_path := none, selected_files := [],
             last_command := prevCtx.last_command,
             last_response := prevCtx.last_response,
             timestamp := 9 } :=
  update_context_resets aiStPrev prevCtx 9 rfl

/-! ## C2 — streaming completion (code bug: context.copy does not exist) -/

/-- C2 (code bug): with a context set — the normal operating mode after any
update_context call — a cleanly closed stream of chunks Hel, lo-comma and
world emits the start and the three chunk notifications in order, but the
AIResponse construction then calls self.context.copy() on a plain
dataclass, which raises AttributeError: the command ends as an unexpected
error after an error notification, responseComplete never fires, and no
AIResponse with content Hello-comma-world is returned, contrary to the
claim and to the function docstring. -/
theorem process_command_copy_crash :
    process_command aiStWs "list files"
        { chunks := ["Hel", "lo, ", "world"], ending := none } [] 5 =
      some ([AIEvent.responseStarted, AIEvent.responseChunk "Hel",
             AIEvent.responseChunk "lo, ", AIEvent.responseChunk "world",
             AIEvent.errorOccurred copyCrashMsg],
            Except.error (AIError.unexpected copyCrashMsg),
            { aiStWs with
              limiter := { rate_limit := 50, tokens := 50 - 1, last_update := 0 },
              context := some { ctxWs with
                last_command := some "list files",
                last_response := some "Hello, world",
                timestamp := 5 } }) ∧
    (∀ r, AIEvent.responseComplete r ∉
      ([AIEvent.responseStarted, AIEvent.responseChunk "Hel",
        AIEvent.responseChunk "lo, ", AIEvent.responseChunk "world",
        AIEvent.errorOccurred copyCrashMsg] : List AIEvent)) := by
  constructor
  · rfl
  · intro r
    simp

/-! ## C6 — failure semantics of process_command -/

theorem errEvents_shape (delivered : List String) (msg : String) :
    ((AIEvent.responseStarted :: delivered.map AIEvent.responseChunk) ++
      [AIEvent.errorOccurred msg]).getLast? = some (AIEvent.errorOccurred msg) ∧
    ∀ r, AIEvent.responseComplete r ∉
      (AIEvent.responseStarted :: delivered.map AIEvent.responseChunk) ++
        [AIEvent.errorOccurred msg] := by
  constructor
  · exact List.getLast?_concat _
  · intro r
    simp

/-- C6: on every initialized run of process_command that propagates an
exception — remote timeout, remote rate-limit rejection, other transport
error, or the unexpected internal error — the last emitted event is an
error notification, so it precedes the propagation; responseComplete is
never emitted, hence no partial AIResponse is returned and the buffered
chunks are discarded; and the exception is the claimed mapping of the
stream ending: timeout as ConnectionError, remote rate limit re-raised
unchanged, other transport errors wrapped as ConnectionError, unexpected
errors re-raised unchanged. -/
theorem process_command_failure_semantics
    (st : AIServiceState) (cmd : String) (outcome : RemoteOutcome)
    (times : List ℚ) (now : Nat)
    (evs : List AIEvent) (e : AIError) (st₂ : AIServiceState)
    (hinit : st.initialized = true)
    (h : process_command st cmd outcome times now = some (evs, Except.error e, st₂)) :
    (∃ msg, evs.getLast? = some (AIEvent.errorOccurred msg)) ∧
    (∀ r, AIEvent.responseComplete r ∉ evs) ∧
    (outcome.ending = some RemoteEnding.timeout →
      e = AIError.connectionError "AI request timed out") ∧
    (outcome.ending = some RemoteEnding.rateLimited →
      e = AIError.rateLimit "AI rate limit exceeded") ∧
    (∀ m, outcome.ending = some (RemoteEnding.apiError m) →
      e = AIError.connectionError ("AI API error: " ++ m)) ∧
    (∀ m, outcome.ending = some (RemoteEnding.other m) →
      e = AIError.unexpected ("Unexpected error in AI processing: " ++ m)) := by
  unfold process_command at h
  rw [hinit] at h
  simp at h
  cases ha : acquire st.limiter times with
  | none => rw [ha] at h; simp at h
  | some lim₂ =>
    rw [ha] at h
    simp at h
    unfold run_stream at h
    cases he : outcome.ending with
    | none =>
      rw [he] at h
      cases hc : st.context with
      | none =>
        rw [show ({ st with limiter := lim₂ } : AIServiceState).context = none from hc] at h
        simp at h
      | some ctx =>
        rw [show ({ st with limiter := lim₂ } : AIServiceState).context = some ctx from hc] at h
        simp at h
        obtain ⟨hevs, herr, _⟩ := h
        obtain ⟨hlast, hnc⟩ := errEvents_shape
          (outcome.chunks.filter (fun c => !c.isEmpty)) copyCrashMsg
        subst hevs
        refine ⟨⟨copyCrashMsg, hlast⟩, hnc, ?_, ?_, ?_, ?_⟩
        · intro hx; simp at hx
        · intro hx; simp at hx
        · intro m hx; simp at hx
        · intro m hx; simp at hx
    | some re =>
      rw [he] at h
      cases re with
      | timeout =>
        simp at h
        obtain ⟨hevs, herr, _⟩ := h
        obtain ⟨hlast, hnc⟩ := errEvents_shape
          (outcome.chunks.filter (fun c => !c.isEmpty)) "AI request timed out"
        subst hevs
        refine ⟨⟨_, hlast⟩, hnc, fun _ => herr.symm, ?_, ?_, ?_⟩
        · intro hx; simp at hx
        · intro m hx; simp at hx
        · intro m hx; simp at hx
      | rateLimited =>
        simp at h
        obtain ⟨hevs, herr, _⟩ := h
        obtain ⟨hlast, hnc⟩ := errEvents_shape
          (outcome.chunks.filter (fun c => !c.isEmpty)) "AI rate limit exceeded"
        subst hevs
        refine ⟨⟨_, hlast⟩, hnc, ?_, fun _ => herr.symm, ?_, ?_⟩
        · intro hx; simp at hx
        · intro m hx; simp at hx
        · intro m hx; simp at hx
      | apiError msg =>
        simp at h
        obtain ⟨hevs, herr, _⟩ := h
        obtain ⟨hlast, hnc⟩ := errEvents_shape
          (outcome.chunks.filter (fun c => !c.isEmpty)) ("AI API error: " ++ msg)
        subst hevs
        refine ⟨⟨_, hlast⟩, hnc, ?_, ?_, ?_, ?_⟩
        · intro hx; simp at hx
        · intro hx; simp at hx
        · intro m hx
          simp at hx
          subst hx
          exact herr.symm
        · intro m hx; simp at hx
      | other msg =>
        simp at h
        obtain ⟨hevs, herr, _⟩ := h
        obtain ⟨hlast, hnc⟩ := errEvents_shape
          (outcome.chunks.filter (fun c => !c.isEmpty))
          ("Unexpected error in AI processing: " ++ msg)
        subst hevs
        refine ⟨⟨_, hlast⟩, hnc, ?_, ?_, ?_, ?_⟩
        · intro hx; simp at hx
        · intro hx; simp at hx
        · intro m hx; simp at hx
        · intro m hx
          simp at hx
          subst hx
          exact herr.symm

/-- C6 witness: a timeout with no delivered chunks on an initialized
service. -/
theorem process_command_failure_semantics_witness :
    (∃ msg, ([AIEvent.responseStarted,
        AIEvent.errorOccurred "AI request timed out"] : List AIEvent).getLast? =
        some (AIEvent.errorOccurred msg)) ∧
    (∀ r, AIEvent.responseComplete r ∉ ([AIEvent.responseStarted,
        AIEvent.errorOccurred "AI request timed out"] : List AIEvent)) ∧
    (({ chunks := [], ending := some RemoteEnding.timeout } : RemoteOutcome).ending =
        some RemoteEnding.timeout →
      AIError.connectionError "AI request timed out" =
        AIError.connectionError "AI request timed out") ∧
    (({ chunks := [], ending := some RemoteEnding.timeout } : RemoteOutcome).ending =
        some RemoteEnding.rateLimited →
      AIError.connectionError "AI request timed out" =
        AIError.rateLimit "AI rate limit exceeded") ∧
    (∀ m, ({ chunks := [], ending := some RemoteEnding.timeout } : RemoteOutcome).ending =
        some (RemoteEnding.apiError m) →
      AIError.connectionError "AI request timed out" =
        AIError.connectionError ("AI API error: " ++ m)) ∧
    (∀ m, ({ chunks := [], ending := some RemoteEnding.timeout } : RemoteOutcome).ending =
        some (RemoteEnding.other m) →
      AIError.connectionError "AI request timed out" =
        AIError.unexpected ("Unexpected error in AI processing: " ++ m)) :=
  process_command_failure_semantics aiStNoCtx "hi"
    { chunks := [], ending := some RemoteEnding.timeout } [] 0
    [AIEvent.responseStarted, AIEvent.errorOccurred "AI request timed out"]
    (AIError.connectionError "AI request timed out")
    { aiStNoCtx with limiter := { rate_limit := 1, tokens := 1 - 1, last_update := 0 } }
    rfl rfl

/-- C7 witness: registering a fresh directory once succeeds and satisfies
the conclusions at that concrete state. -/
theorem start_monitoring_idem_witness :
    start_monitoring
      { oneDirFS with watches := ["/w"], monitored_paths := ["/w"] } "/w" =
      .ok { oneDirFS with watches := ["/w"], monitored_paths := ["/w"] } ∧
    ({ oneDirFS with watches := ["/w"], monitored_paths := ["/w"] } : FSState).watches =
      ({ oneDirFS with watches := ["/w"], monitored_paths := ["/w"] } : FSState).monitored_paths ∧
    ({ oneDirFS with watches := ["/w"], monitored_paths := ["/w"] } : FSState).monitored_paths.Nodup ∧
    ({ oneDirFS with watches := ["/w"], monitored_paths := ["/w"] } : FSState).watches.count "/w" = 1 :=
  start_monitoring_idem oneDirFS _ "/w" rfl (by decide) (by decide)

end FileExplorer
